import Mathlib

/-!
Verification of the injury-intelligence pipeline of the NCAAProjectCH
repository (src/injury_scraper.py, src/star_players.py).

The Python code is shallowly embedded: dictionaries holding injury records
become a structure whose fields are the keys the code reads (`dict.get`
defaults become the structure's default field values), Python floats carry
exact decimal values here and are modelled as rationals, `round(x, n)` is
modelled as round-half-to-even at `n` decimal digits (CPython's rounding
mode), exceptions become `Except`, and the file-system cache becomes
explicit state passing.  Python string operations (`lower`, `strip`,
`split`, `replace`, `startswith`) are re-implemented over character lists
so that every definition evaluates by kernel reduction.
-/

namespace NCAAProof

set_option maxRecDepth 8192

/- ## Python string primitives -/

/-- Python `str.lower` for the ASCII strings this program handles. -/
def pyLower (s : String) : String := ⟨s.data.map Char.toLower⟩

/-- Python `str.strip()`: drop leading and trailing whitespace. -/
def pyStrip (s : String) : String :=
  ⟨((s.data.dropWhile Char.isWhitespace).reverse.dropWhile Char.isWhitespace).reverse⟩

/-- Helper for `pySplit`: split a character list on whitespace runs,
accumulating the current (reversed) token. -/
def splitWsAux : List Char → List Char → List (List Char)
  | [], acc => if acc.isEmpty then [] else [acc.reverse]
  | c :: cs, acc =>
    if c.isWhitespace then
      if acc.isEmpty then splitWsAux cs [] else acc.reverse :: splitWsAux cs []
    else splitWsAux cs (c :: acc)

/-- Python `str.split()` with no argument: split on whitespace runs and
discard empty tokens. -/
def pySplit (s : String) : List String := (splitWsAux s.data []).map String.mk

/-- Helper for `pyReplace`: replace every leftmost non-overlapping occurrence
of `old` by `new`.  The fuel argument starts at the list's length; every step
consumes at least one character whenever `old` is non-empty (which holds at
all call sites), so the fuel never runs out. -/
def replaceCore (old new : List Char) : ℕ → List Char → List Char
  | 0, l => l
  | _ + 1, [] => []
  | fuel + 1, c :: cs =>
    if old.isPrefixOf (c :: cs) then new ++ replaceCore old new fuel ((c :: cs).drop old.length)
    else c :: replaceCore old new fuel cs

/-- Python `str.replace(old, new)` for non-empty `old`. -/
def pyReplace (s old new : String) : String :=
  ⟨replaceCore old.data new.data s.data.length s.data⟩

/-- Python `str.startswith(pre)`. -/
def pyStartsWith (s pre : String) : Bool := pre.data.isPrefixOf s.data

/- ## Python round(x, ndigits) -/

/-- Round a rational to an integer, ties to the even integer (CPython's
`round` uses round-half-to-even). -/
def roundHalfEven (x : ℚ) : ℤ :=
  if Int.fract x < 1 / 2 then ⌊x⌋
  else if 1 / 2 < Int.fract x then ⌊x⌋ + 1
  else if ⌊x⌋ % 2 = 0 then ⌊x⌋ else ⌊x⌋ + 1

/-- Python `round(x, 2)` on the exact rational value. -/
def rnd2 (x : ℚ) : ℚ := (roundHalfEven (x * 100) : ℚ) / 100

/-- Python `round(x, 1)` on the exact rational value. -/
def rnd1 (x : ℚ) : ℚ := (roundHalfEven (x * 10) : ℚ) / 10

/- ## Injury records (src/injury_scraper.py) -/

/-- An extracted injury record: the dictionary keys that
`InjuryAnalyzer._compute_team_impact` and `_apply_star_overrides` read.
Default field values are the `dict.get` defaults the aggregator uses for a
missing key (`impact_score` 3, `status` "Questionable", `is_starter` False,
`player` "Unknown"); `_apply_star_overrides` reads `player` with default ""
and writes `impact_score`, `is_starter` and `star_verified`. -/
structure Injury where
  player : String := "Unknown"
  status : String := "Questionable"
  is_starter : Bool := false
  impact_score : ℚ := 3
  star_verified : Bool := false
deriving DecidableEq, Repr

/-- The per-record status weight table of `_compute_team_impact`
(`{'Out': 1.0, 'Doubtful': 0.85, 'Questionable': 0.4, 'Day-to-Day': 0.5,
'Probable': 0.15}.get(status, 0.5)`). -/
def status_weight (status : String) : ℚ :=
  if status = "Out" then 1.0
  else if status = "Doubtful" then 0.85
  else if status = "Questionable" then 0.4
  else if status = "Day-to-Day" then 0.5
  else if status = "Probable" then 0.15
  else 0.5

/-- `status in ('Out', 'Doubtful')`. -/
def outDoubtful (inj : Injury) : Bool :=
  inj.status = "Out" || inj.status = "Doubtful"

/-- `status in ('Out', 'Doubtful') and is_starter`: the records counted in
`out_starters` and listed in `key_players_out`. -/
def keyOut (inj : Injury) : Bool := outDoubtful inj && inj.is_starter

/-- The loop accumulator `total_impact`: sum of
`impact_score * status_weight` over the records. -/
def totalImpact (injuries : List Injury) : ℚ :=
  (injuries.map (fun inj => inj.impact_score * status_weight inj.status)).sum

/-- `adj_em_penalty = round(total_impact * 0.4, 2)`. -/
def adjEmPenaltyOf (total_impact : ℚ) : ℚ := rnd2 (total_impact * 0.4)

/-- The severity thresholds of `_compute_team_impact`. -/
def severityOf (adj_em_penalty : ℚ) : String :=
  if adj_em_penalty ≥ 5 then "critical"
  else if adj_em_penalty ≥ 2.5 then "significant"
  else if adj_em_penalty ≥ 1 then "moderate"
  else if adj_em_penalty > 0 then "minor"
  else "none"

/-- The summary string built from `summary_parts` at the end of
`_compute_team_impact` (non-empty input only). -/
def summaryOf (key_players_out : List String) (out_players : ℕ) : String :=
  let part1 : List String :=
    if key_players_out.isEmpty then []
    else ["Key out: " ++ String.intercalate ", " key_players_out]
  let part2 : List String :=
    if key_players_out.length < out_players then
      ["+" ++ toString (out_players - key_players_out.length) ++ " others out/doubtful"]
    else []
  let summary_parts := part1 ++ part2
  if summary_parts.isEmpty then "Minor injuries only"
  else String.intercalate "; " summary_parts

/-- The dictionary `_compute_team_impact` returns. -/
structure TeamImpact where
  adj_em_penalty : ℚ
  variance_boost : ℚ
  tempo_adj : ℚ
  out_starters : ℕ
  out_players : ℕ
  total_impact_score : ℚ
  key_players_out : List String
  summary : String
  severity : String
deriving DecidableEq, Repr

/-- `InjuryAnalyzer._compute_team_impact`.  The Python single pass over
`injuries` accumulating `total_impact`, `out_starters`, `out_players` and
`key_players_out` is rendered by the equivalent sum / count / filter
expressions. -/
def compute_team_impact (injuries : List Injury) : TeamImpact :=
  match injuries with
  | [] =>
    { adj_em_penalty := 0.0
      variance_boost := 0.0
      tempo_adj := 0.0
      out_starters := 0
      out_players := 0
      total_impact_score := 0.0
      key_players_out := []
      summary := "Fully healthy"
      severity := "none" }
  | _ :: _ =>
    let total_impact := totalImpact injuries
    let out_starters := (injuries.filter keyOut).length
    let out_players := (injuries.filter outDoubtful).length
    let key_players_out := (injuries.filter keyOut).map (fun inj => inj.player)
    let adj_em_penalty := adjEmPenaltyOf total_impact
    let variance_boost := rnd2 ((out_players : ℚ) * 0.15 + (out_starters : ℚ) * 0.25)
    let tempo_adj := rnd2 (-(out_starters : ℚ) * 0.3)
    { adj_em_penalty := adj_em_penalty
      variance_boost := variance_boost
      tempo_adj := tempo_adj
      out_starters := out_starters
      out_players := out_players
      total_impact_score := rnd1 total_impact
      key_players_out := key_players_out
      summary := summaryOf key_players_out out_players
      severity := severityOf adj_em_penalty }

/-- The two-record input of the spec's testable property for C1: one
non-starter "Questionable" record with impact 3. -/
def c1RecQuestionable : Injury :=
  { player := "Guard A", status := "Questionable", is_starter := false, impact_score := 3 }

/-- The starter "Out" record with impact 8 of the same property. -/
def c1RecOut : Injury :=
  { player := "Star B", status := "Out", is_starter := true, impact_score := 8 }

/-- The single-record input of the spec's round-trip property for C3. -/
def c3Rec : Injury :=
  { player := "Star C", status := "Out", is_starter := true, impact_score := 10 }

/-- A two-record input exercising both summary pieces (C7's witness). -/
def c7DemoList : List Injury :=
  [c1RecOut,
   { player := "Bench D", status := "Doubtful", is_starter := false, impact_score := 2 }]


/- ## The star player reference table (src/star_players.py) -/

/-- One value of the STAR_PLAYERS dictionary.  The free-text "note" field is
never read by any code under verification and is omitted. -/
structure StarInfo where
  team : String
  position : String
  tier : String
  impact : ℤ
deriving DecidableEq, Repr

/-- The exception a Python subscript on an empty list raises. -/
inductive PyErr where
  | indexError
deriving DecidableEq, Repr

/-- Entries 1-22 of the STAR_PLAYERS dictionary, in insertion
order (the table is split in four only to keep elaboration fast). -/
def starChunk0 : List (String × StarInfo) := [
  ("Cooper Flagg", ⟨"Duke", "PF", "superstar", 10⟩),
  ("Dylan Harper", ⟨"Rutgers", "SG", "superstar", 10⟩),
  ("Ace Bailey", ⟨"Rutgers", "SF", "superstar", 10⟩),
  ("Kasparas Jakucionis", ⟨"Illinois", "PG", "superstar", 10⟩),
  ("VJ Edgecombe", ⟨"Baylor", "SG", "superstar", 10⟩),
  ("Liam McNeeley", ⟨"Connecticut", "SF", "superstar", 10⟩),
  ("Mark Sears", ⟨"Alabama", "PG", "star", 9⟩),
  ("Johni Broome", ⟨"Auburn", "C", "star", 9⟩),
  ("RJ Davis", ⟨"North Carolina", "PG", "star", 9⟩),
  ("Otega Oweh", ⟨"Michigan", "SF", "star", 9⟩),
  ("Tre Johnson", ⟨"Texas", "SG", "star", 9⟩),
  ("Chaz Lanier", ⟨"Tennessee", "SG", "star", 9⟩),
  ("Danny Wolf", ⟨"Michigan", "C", "star", 9⟩),
  ("Jeremiah Fears", ⟨"Oklahoma", "PG", "star", 9⟩),
  ("Kon Knueppel", ⟨"Duke", "SG", "star", 9⟩),
  ("Nolan Traore", ⟨"Creighton", "PG", "star", 9⟩),
  ("Zuby Ejiofor", ⟨"Duke", "C", "star", 9⟩),
  ("AJ Storr", ⟨"Kansas", "SG", "star", 9⟩),
  ("Hunter Dickinson", ⟨"Kansas", "C", "star", 9⟩),
  ("Darryn Peterson", ⟨"Kansas", "PF", "star", 9⟩),
  ("Egor Demin", ⟨"Baylor", "PG", "star", 9⟩),
  ("Collin Murray-Boyles", ⟨"South Carolina", "PF", "star", 9⟩)]

/-- Entries 23-44 of the STAR_PLAYERS dictionary, in insertion
order (the table is split in four only to keep elaboration fast). -/
def starChunk1 : List (String × StarInfo) := [
  ("JT Toppin", ⟨"Texas Tech", "F", "key_star", 9⟩),
  ("Tyrese Proctor", ⟨"Duke", "PG", "key_star", 8⟩),
  ("Ian Jackson", ⟨"North Carolina", "SG", "key_star", 8⟩),
  ("Caleb Love", ⟨"Arizona", "PG", "key_star", 8⟩),
  ("Jalen Bridges", ⟨"Houston", "SF", "key_star", 8⟩),
  ("Emanuel Sharp", ⟨"Houston", "SG", "key_star", 8⟩),
  ("J'Wan Roberts", ⟨"Houston", "PF", "key_star", 8⟩),
  ("L.J. Cryer", ⟨"Houston", "PG", "key_star", 8⟩),
  ("Terrence Shannon Jr.", ⟨"Illinois", "SG", "key_star", 8⟩),
  ("Curtis Jones", ⟨"Iowa St.", "PG", "key_star", 8⟩),
  ("Tamin Lipsey", ⟨"Iowa St.", "PG", "key_star", 8⟩),
  ("Milan Momcilovic", ⟨"Iowa St.", "SG", "key_star", 8⟩),
  ("Braden Smith", ⟨"Purdue", "PG", "key_star", 8⟩),
  ("Trey Kaufman-Renn", ⟨"Purdue", "PF", "key_star", 8⟩),
  ("Ryan Nembhard", ⟨"Gonzaga", "PG", "key_star", 8⟩),
  ("Graham Ike", ⟨"Gonzaga", "PF", "key_star", 8⟩),
  ("Alex Karaban", ⟨"Connecticut", "PF", "key_star", 8⟩),
  ("Ahmad Nowell", ⟨"Florida", "PG", "key_star", 8⟩),
  ("Walter Clayton Jr.", ⟨"Florida", "SG", "key_star", 8⟩),
  ("Jaylin Williams", ⟨"Michigan St.", "SF", "key_star", 8⟩),
  ("Jase Richardson", ⟨"Michigan St.", "PG", "key_star", 8⟩),
  ("Derik Queen", ⟨"Maryland", "C", "key_star", 8⟩)]

/-- Entries 45-66 of the STAR_PLAYERS dictionary, in insertion
order (the table is split in four only to keep elaboration fast). -/
def starChunk2 : List (String × StarInfo) := [
  ("Taylor Hendricks", ⟨"Vanderbilt", "PF", "key_star", 8⟩),
  ("Tyler Kolek", ⟨"Marquette", "PG", "key_star", 8⟩),
  ("Kam Jones", ⟨"Marquette", "SG", "key_star", 8⟩),
  ("Dalton Knecht", ⟨"Tennessee", "SF", "key_star", 8⟩),
  ("Zakai Zeigler", ⟨"Tennessee", "PG", "key_star", 8⟩),
  ("J.P. Estrella", ⟨"Tennessee", "PF", "key_star", 8⟩),
  ("Labaron Philon", ⟨"Alabama", "SG", "key_star", 8⟩),
  ("Aden Holloway", ⟨"Alabama", "PG", "key_star", 8⟩),
  ("Cliff Omoruyi", ⟨"Alabama", "C", "key_star", 8⟩),
  ("Flory Bidunga", ⟨"Arkansas", "C", "key_star", 8⟩),
  ("D.J. Wagner", ⟨"Arkansas", "G", "key_star", 8⟩),
  ("Justin Edwards", ⟨"Kentucky", "SF", "key_star", 8⟩),
  ("Otis Livingston II", ⟨"Kentucky", "PG", "key_star", 8⟩),
  ("Jaxson Robinson", ⟨"Kentucky", "SG", "key_star", 8⟩),
  ("Jaylen Crocker-Johnson", ⟨"Minnesota", "F", "key_star", 8⟩),
  ("Kadary Richmond", ⟨"St. John's", "PG", "key_star", 8⟩),
  ("RJ Luis Jr.", ⟨"St. John's", "SF", "key_star", 8⟩),
  ("Pop Isaacs", ⟨"Baylor", "SG", "key_star", 8⟩),
  ("Cody Williams", ⟨"Arizona", "SF", "key_star", 8⟩),
  ("Matas Buzelis", ⟨"Wake Forest", "SF", "key_star", 8⟩),
  ("Isaiah Collier", ⟨"USC", "PG", "key_star", 8⟩),
  ("Boogie Fland", ⟨"Arkansas", "PG", "key_star", 8⟩)]

/-- Entries 67-88 of the STAR_PLAYERS dictionary, in insertion
order (the table is split in four only to keep elaboration fast). -/
def starChunk3 : List (String × StarInfo) := [
  ("Karter Knox", ⟨"Arkansas", "SF", "key_star", 8⟩),
  ("Malique Ewin", ⟨"Arkansas", "C", "key_star", 7⟩),
  ("Jason Sheldon", ⟨"Nebraska", "PG", "key_star", 8⟩),
  ("Brice Williams", ⟨"Nebraska", "SF", "key_star", 8⟩),
  ("Tobe Awaka", ⟨"Vanderbilt", "C", "key_star", 8⟩),
  ("Jason Edwards", ⟨"Vanderbilt", "SG", "key_star", 8⟩),
  ("Johnell Davis", ⟨"Florida", "SF", "starter", 7⟩),
  ("Sam Rubin", ⟨"Florida", "PF", "starter", 7⟩),
  ("Jalen Wilson", ⟨"Kansas", "SF", "starter", 7⟩),
  ("KJ Adams Jr.", ⟨"Kansas", "PF", "starter", 7⟩),
  ("Dajuan Harris Jr.", ⟨"Kansas", "PG", "starter", 7⟩),
  ("Reed Sheppard", ⟨"Houston", "SG", "starter", 7⟩),
  ("Terrance Arceneaux", ⟨"Houston", "SF", "starter", 7⟩),
  ("Dawson Garcia", ⟨"North Carolina", "PF", "starter", 7⟩),
  ("Elliot Cadeau", ⟨"North Carolina", "PG", "starter", 7⟩),
  ("Jeremy Roach", ⟨"Baylor", "PG", "starter", 7⟩),
  ("Jalen Duren", ⟨"Villanova", "C", "starter", 7⟩),
  ("Chris Cenac Jr.", ⟨"Saint Louis", "PF", "starter", 7⟩),
  ("Robbie Avila", ⟨"Saint Louis", "C", "starter", 7⟩),
  ("Jordan Pope", ⟨"Texas Tech", "PG", "starter", 7⟩),
  ("Darrion Williams", ⟨"Texas Tech", "SF", "starter", 7⟩),
  ("Chance McMillian", ⟨"Texas Tech", "SG", "starter", 7⟩)]

/-- The STAR_PLAYERS dictionary of src/star_players.py, in insertion
(= iteration) order. -/
def STAR_PLAYERS : List (String × StarInfo) :=
  starChunk0 ++ starChunk1 ++ starChunk2 ++ starChunk3


/-- The fuzzy loop of `get_star_player` over the table: per entry, first a
case-insensitive exact comparison, then (for keys of at least two name
tokens) a last-name comparison - whose right-hand side subscripts
`name_lower.split()[-1]` and raises IndexError when the name has no tokens -
gated by a first-initial comparison.  Mirrors the Python statement order,
including where the subscript error fires. -/
def starLoop (name_lower : String) :
    List (String × StarInfo) → Except PyErr (Option StarInfo)
  | [] => .ok none
  | (key, val) :: rest =>
    if pyLower key = name_lower then .ok (some val)
    else
      let parts := pySplit key
      if 2 ≤ parts.length then
        if (pySplit name_lower).isEmpty then .error .indexError
        else if pyLower (parts.getLastD "") = pyLower ((pySplit name_lower).getLastD "") then
          if ((pySplit name_lower).headD "").data.headD ' '
              = Char.toLower ((parts.headD "").data.headD ' ') then
            .ok (some val)
          else starLoop name_lower rest
        else starLoop name_lower rest
      else starLoop name_lower rest

/-- `get_star_player` of src/star_players.py: exact (case-sensitive) lookup
first, then the fuzzy loop on `player_name.lower().strip()`. -/
def get_star_player (player_name : String) : Except PyErr (Option StarInfo) :=
  match STAR_PLAYERS.lookup player_name with
  | some val => .ok (some val)
  | none => starLoop (pyStrip (pyLower player_name)) STAR_PLAYERS

/-- The per-entry hit test of the fuzzy loop, as a predicate: a table entry
is taken when its key matches case-insensitively exactly, or on last name
plus first initial. -/
def loop_hit (name_lower key : String) : Bool :=
  if pyLower key = name_lower then true
  else if 2 ≤ (pySplit key).length then
    if pyLower ((pySplit key).getLastD "") = pyLower ((pySplit name_lower).getLastD "") then
      if ((pySplit name_lower).headD "").data.headD ' '
          = Char.toLower (((pySplit key).headD "").data.headD ' ') then true
      else false
    else false
  else false

/-- The per-record body of `InjuryAnalyzer._apply_star_overrides`: when the
player resolves in the table the record's impact_score and is_starter are
overwritten from the entry and star_verified is set; otherwise only
star_verified is set (to False). -/
def overrideOne (inj : Injury) : Except PyErr Injury :=
  match get_star_player inj.player with
  | .error e => .error e
  | .ok none => .ok { inj with star_verified := false }
  | .ok (some star) =>
    .ok { inj with
      impact_score := (star.impact : ℚ)
      is_starter :=
        decide (star.tier ∈ (["superstar", "star", "key_star", "starter"] : List String))
      star_verified := true }

/-- `InjuryAnalyzer._apply_star_overrides` over the whole record list; an
exception raised on any record aborts the pass. -/
def apply_star_overrides : List Injury → Except PyErr (List Injury)
  | [] => .ok []
  | inj :: rest =>
    match overrideOne inj with
    | .error e => .error e
    | .ok inj2 =>
      match apply_star_overrides rest with
      | .error e => .error e
      | .ok rest2 => .ok (inj2 :: rest2)


/- ## Team-name fuzzy matching (InjuryAnalyzer._team_match) -/

/-- The normalizing substitutions of `_team_match`, applied in dictionary
order: remove periods, remove apostrophes, expand "st " to "state ", expand
"uconn" to "connecticut". -/
def normalize_team (s : String) : String :=
  pyReplace (pyReplace (pyReplace (pyReplace s "." "") "'" "") "st " "state ")
    "uconn" "connecticut"

/-- `InjuryAnalyzer._team_match`: the guard on falsy (empty) names, then the
case-fold + trim comparison, then the comparison after normalization, then
the prefix rule gated on the normalized target name's length. -/
def team_match (scraped_name target_name : String) : Bool :=
  if scraped_name = "" || target_name = "" then false
  else
    let s := pyStrip (pyLower scraped_name)
    let t := pyStrip (pyLower target_name)
    if s = t then true
    else
      let s_clean := normalize_team s
      let t_clean := normalize_team t
      if s_clean = t_clean then true
      else
        decide (5 ≤ t_clean.length)
          && (pyStartsWith s_clean t_clean || pyStartsWith t_clean s_clean)

/-- The matching rule exactly as the spec words it (for comparison with
`team_match`): equal after case-folding and trimming, or equal after the
normalizing substitutions, or normalized target of length at least 5 and
either normalized name a prefix of the other - with no emptiness guard. -/
def team_match_spec (scraped_name target_name : String) : Bool :=
  let s := pyStrip (pyLower scraped_name)
  let t := pyStrip (pyLower target_name)
  if s = t then true
  else
    let s_clean := normalize_team s
    let t_clean := normalize_team t
    if s_clean = t_clean then true
    else
      decide (5 ≤ t_clean.length)
        && (pyStartsWith s_clean t_clean || pyStartsWith t_clean s_clean)

/- ## The extraction-response parser (InjuryAnalyzer._parse_json_response) -/

/-- The values Python's `json.loads` can return. -/
inductive PyJson where
  | null
  | bool (b : Bool)
  | num (q : ℚ)
  | str (s : String)
  | arr (elems : List PyJson)
  | obj (entries : List (String × PyJson))

/-- The code-fence marker the parser looks for. -/
def fence : String := "```"

/-- Python's `sep in text` for a non-empty separator. -/
def containsSeq (sep : List Char) : List Char → Bool
  | [] => sep.isEmpty
  | c :: cs => sep.isPrefixOf (c :: cs) || containsSeq sep cs

/-- The characters after the first occurrence of `sep` (input that contains
one). -/
def dropThroughSep (sep : List Char) : List Char → List Char
  | [] => []
  | c :: cs =>
    if sep.isPrefixOf (c :: cs) then (c :: cs).drop sep.length
    else dropThroughSep sep cs

/-- The characters before the first occurrence of `sep` (all of them when
there is none). -/
def takeUntilSep (sep : List Char) : List Char → List Char
  | [] => []
  | c :: cs => if sep.isPrefixOf (c :: cs) then [] else c :: takeUntilSep sep cs

/-- The code-fence step of `_parse_json_response`: when the text contains a
fence marker anywhere, keep `text.split('```')[1]` - the segment between the
first and the second marker (or everything after the first when it is
unclosed) - drop a leading "json" language tag, and strip whitespace. -/
def fence_step (text : String) : String :=
  if containsSeq fence.data text.data then
    let seg : String := ⟨takeUntilSep fence.data (dropThroughSep fence.data text.data)⟩
    let seg := if pyStartsWith seg "json" then ⟨seg.data.drop 4⟩ else seg
    pyStrip seg
  else text

/-- The bracket-slice step: with `start` the index of the first bracket and
`e` the index of the last closing bracket, the slice `text[start:e+1]` when
`start >= 0 and e > start`, the text unchanged otherwise. -/
def slice_brackets (text : String) : String :=
  let cs := text.data
  match cs.findIdx? (fun c => c = '[') with
  | none => text
  | some start =>
    match cs.reverse.findIdx? (fun c => c = ']') with
    | none => text
    | some r =>
      let e := cs.length - 1 - r
      if start < e then ⟨(cs.drop start).take (e + 1 - start)⟩ else text

/-- `InjuryAnalyzer._parse_json_response`, parameterized by `json.loads`
(standard-library code outside src/, modelled as any function from text to
an optional JSON value, `none` standing for JSONDecodeError): the fence
step, the bracket slice, parsing, and the empty list whenever parsing fails
or the parsed value is not a list. -/
def parse_json_response (loads : String → Option PyJson) (text : String) : List PyJson :=
  match loads (slice_brackets (fence_step text)) with
  | some (PyJson.arr elems) => elems
  | some _ => []
  | none => []

/-- The parsing policy exactly as the spec words it (for comparison with
`parse_json_response`): strip a LEADING code-fence marker and an optional
language tag if present, then slice from the first bracket to the last and
parse, with the same fail-soft default. -/
def parse_json_response_spec (loads : String → Option PyJson) (text : String) :
    List PyJson :=
  let t :=
    if pyStartsWith text fence then
      let u : String := ⟨text.data.drop 3⟩
      pyStrip (if pyStartsWith u "json" then ⟨u.data.drop 4⟩ else u)
    else text
  match loads (slice_brackets t) with
  | some (PyJson.arr elems) => elems
  | some _ => []
  | none => []

/-- Whitespace skipping of the JSON grammar. -/
def jsonSkipWs : List Char → List Char
  | [] => []
  | c :: cs =>
    if c = ' ' || c = '\t' || c = '\n' || c = '\r' then jsonSkipWs cs else c :: cs

/-- Digit-run accumulation of a non-negative integer literal. -/
def jsonDigitsAux : List Char → ℕ → ℕ × List Char
  | [], acc => (acc, [])
  | c :: cs, acc =>
    if '0' ≤ c ∧ c ≤ '9' then jsonDigitsAux cs (acc * 10 + (c.toNat - 48))
    else (acc, c :: cs)

/-- An escape-free JSON string body up to the closing quote. -/
def jsonStringAux : List Char → List Char → Option (String × List Char)
  | [], _ => none
  | c :: cs, acc =>
    if c = '"' then some (⟨acc.reverse⟩, cs)
    else if c = '\\' then none
    else jsonStringAux cs (c :: acc)

mutual

/-- Modelled from the spec: the hosted reply is "parsed as structured data"
by `json.loads`, standard-library code outside src/.  This fuel-bounded
recursive-descent parser covers the null / true / false / non-negative
integer / escape-free string / array / object fragment, enough to evaluate
the pipeline on concrete replies; input outside the fragment fails as
invalid JSON does. -/
def jsonVal : ℕ → List Char → Option (PyJson × List Char)
  | 0, _ => none
  | fuel + 1, cs =>
    match jsonSkipWs cs with
    | 'n' :: 'u' :: 'l' :: 'l' :: rest => some (.null, rest)
    | 't' :: 'r' :: 'u' :: 'e' :: rest => some (.bool true, rest)
    | 'f' :: 'a' :: 'l' :: 's' :: 'e' :: rest => some (.bool false, rest)
    | '"' :: rest =>
      match jsonStringAux rest [] with
      | some (s, rest2) => some (.str s, rest2)
      | none => none
    | '[' :: rest =>
      match jsonSkipWs rest with
      | ']' :: rest2 => some (.arr [], rest2)
      | _ =>
        match jsonItems fuel rest with
        | some (vs, rest2) => some (.arr vs, rest2)
        | none => none
    | '{' :: rest =>
      match jsonSkipWs rest with
      | '}' :: rest2 => some (.obj [], rest2)
      | _ =>
        match jsonFields fuel rest with
        | some (kvs, rest2) => some (.obj kvs, rest2)
        | none => none
    | c :: rest =>
      if '0' ≤ c ∧ c ≤ '9' then
        let digits := jsonDigitsAux rest (c.toNat - 48)
        some (.num (digits.1 : ℚ), digits.2)
      else none
    | [] => none

/-- Comma-separated array elements up to the closing bracket. -/
def jsonItems : ℕ → List Char → Option (List PyJson × List Char)
  | 0, _ => none
  | fuel + 1, cs =>
    match jsonVal fuel cs with
    | none => none
    | some (v, rest) =>
      match jsonSkipWs rest with
      | ',' :: rest2 =>
        match jsonItems fuel rest2 with
        | some (vs, rest3) => some (v :: vs, rest3)
        | none => none
      | ']' :: rest2 => some ([v], rest2)
      | _ => none

/-- Comma-separated object fields up to the closing brace. -/
def jsonFields : ℕ → List Char → Option (List (String × PyJson) × List Char)
  | 0, _ => none
  | fuel + 1, cs =>
    match jsonSkipWs cs with
    | '"' :: rest =>
      match jsonStringAux rest [] with
      | none => none
      | some (k, rest2) =>
        match jsonSkipWs rest2 with
        | ':' :: rest3 =>
          match jsonVal fuel rest3 with
          | none => none
          | some (v, rest4) =>
            match jsonSkipWs rest4 with
            | ',' :: rest5 =>
              match jsonFields fuel rest5 with
              | some (kvs, rest6) => some ((k, v) :: kvs, rest6)
              | none => none
            | '}' :: rest5 => some ([(k, v)], rest5)
            | _ => none
        | _ => none
    | _ => none

end

/-- `json.loads` on a whole document: one value, then only trailing
whitespace. -/
def loadsModel (s : String) : Option PyJson :=
  match jsonVal (s.data.length + 1) s.data with
  | some (v, rest) => if (jsonSkipWs rest).isEmpty then some v else none
  | none => none

/- ## The disk cache (InjuryCache) -/

/-- A cache file's possible state on disk: unparseable bytes, or a valid
payload with the `_cached_at` timestamp `set` injected (timestamps are in
seconds). -/
inductive CacheFile (α : Type) where
  | garbage
  | valid (data : α) (cached_at : ℚ)

/-- The cache directory: what each identifier's file holds, if present (the
md5 file naming is injective on the identifiers in use, so the store is
keyed by the identifier itself). -/
def CacheStore (α : Type) : Type := String → Option (CacheFile α)

/-- `InjuryCache.set`: stamp the payload with the current time and overwrite
the identifier's file. -/
def cache_set {α : Type} (store : CacheStore α) (identifier : String) (data : α)
    (now : ℚ) : CacheStore α :=
  fun k => if k = identifier then some (.valid data now) else store k

/-- `InjuryCache.get`: a miss when the file is absent or unparseable, or when
`now - cached_at > timedelta(minutes=max_age_minutes)`; otherwise the stored
payload together with its injected `_cached_at` stamp. -/
def cache_get {α : Type} (store : CacheStore α) (identifier : String)
    (max_age_minutes : ℚ) (now : ℚ) : Option (α × ℚ) :=
  match store identifier with
  | none => none
  | some .garbage => none
  | some (.valid data cached_at) =>
    if now - cached_at > max_age_minutes * 60 then none else some (data, cached_at)

/- ## Helper lemmas -/

theorem sw_out : status_weight "Out" = 1.0 := rfl

theorem sw_doubtful : status_weight "Doubtful" = 0.85 := rfl

theorem sw_questionable : status_weight "Questionable" = 0.4 := rfl

theorem sw_daytoday : status_weight "Day-to-Day" = 0.5 := rfl

theorem sw_probable : status_weight "Probable" = 0.15 := rfl

theorem compute_nil :
    compute_team_impact [] =
      { adj_em_penalty := 0.0, variance_boost := 0.0, tempo_adj := 0.0,
        out_starters := 0, out_players := 0, total_impact_score := 0.0,
        key_players_out := [], summary := "Fully healthy", severity := "none" } := rfl

theorem compute_cons (inj : Injury) (rest : List Injury) :
    compute_team_impact (inj :: rest) =
      { adj_em_penalty := adjEmPenaltyOf (totalImpact (inj :: rest))
        variance_boost := rnd2 ((((inj :: rest).filter outDoubtful).length : ℚ) * 0.15
          + (((inj :: rest).filter keyOut).length : ℚ) * 0.25)
        tempo_adj := rnd2 (-((((inj :: rest).filter keyOut).length : ℚ)) * 0.3)
        out_starters := ((inj :: rest).filter keyOut).length
        out_players := ((inj :: rest).filter outDoubtful).length
        total_impact_score := rnd1 (totalImpact (inj :: rest))
        key_players_out := ((inj :: rest).filter keyOut).map (fun i => i.player)
        summary := summaryOf (((inj :: rest).filter keyOut).map (fun i => i.player))
          ((inj :: rest).filter outDoubtful).length
        severity := severityOf (adjEmPenaltyOf (totalImpact (inj :: rest))) } := rfl

theorem rnd2_zero : rnd2 0 = 0 := by
  norm_num [rnd2, roundHalfEven, Int.fract]

theorem floor_le_roundHalfEven (x : ℚ) : ⌊x⌋ ≤ roundHalfEven x := by
  unfold roundHalfEven
  split_ifs <;> omega

theorem roundHalfEven_le_floor_add_one (x : ℚ) : roundHalfEven x ≤ ⌊x⌋ + 1 := by
  unfold roundHalfEven
  split_ifs <;> omega

theorem roundHalfEven_mono {x y : ℚ} (h : x ≤ y) : roundHalfEven x ≤ roundHalfEven y := by
  rcases lt_or_eq_of_le (Int.floor_mono h) with hlt | heq
  · have h1 := roundHalfEven_le_floor_add_one x
    have h2 := floor_le_roundHalfEven y
    omega
  · have hcast : ((⌊x⌋ : ℤ) : ℚ) = ((⌊y⌋ : ℤ) : ℚ) := by exact_mod_cast heq
    have hfx : Int.fract x ≤ Int.fract y := by
      unfold Int.fract
      linarith
    unfold roundHalfEven
    rw [heq]
    split_ifs <;> first | omega | (exfalso; linarith)

theorem rnd2_mono {x y : ℚ} (h : x ≤ y) : rnd2 x ≤ rnd2 y := by
  unfold rnd2
  have h1 : roundHalfEven (x * 100) ≤ roundHalfEven (y * 100) :=
    roundHalfEven_mono (by linarith)
  have h2 : ((roundHalfEven (x * 100) : ℤ) : ℚ) ≤ ((roundHalfEven (y * 100) : ℤ) : ℚ) := by
    exact_mod_cast h1
  linarith

theorem totalImpact_c1 : totalImpact [c1RecQuestionable, c1RecOut] = 9.2 := by
  simp only [totalImpact, c1RecQuestionable, c1RecOut, List.map, List.sum_cons,
    List.sum_nil, sw_out, sw_questionable]
  norm_num

theorem totalImpact_c3 : totalImpact [c3Rec] = 10 := by
  simp only [totalImpact, c3Rec, List.map, List.sum_cons, List.sum_nil, sw_out]
  norm_num

/- ## The claims about the impact aggregator -/

/-- C1: for every list of injury records `_compute_team_impact` computes
`total_impact` as the sum over records of `impact_score` times the status
weight from the table Out=1.0, Doubtful=0.85, Day-to-Day=0.5,
Questionable=0.4, Probable=0.15 (0.5 for any other status), and
`adj_em_penalty` as `round(total_impact * 0.4, 2)`; on the two-record input
(non-starter "Questionable" impact 3, starter "Out" impact 8) the total is
9.2 and the penalty 3.68. -/
theorem c1_total_impact_weighted_sum :
    (∀ injuries : List Injury,
        totalImpact injuries
          = (injuries.map (fun inj => inj.impact_score * status_weight inj.status)).sum)
  ∧ status_weight "Out" = 1.0 ∧ status_weight "Doubtful" = 0.85
  ∧ status_weight "Day-to-Day" = 0.5 ∧ status_weight "Questionable" = 0.4
  ∧ status_weight "Probable" = 0.15
  ∧ (∀ s : String,
      s ∉ (["Out", "Doubtful", "Day-to-Day", "Questionable", "Probable"] : List String) →
      status_weight s = 0.5)
  ∧ (∀ injuries : List Injury,
      (compute_team_impact injuries).adj_em_penalty = rnd2 (totalImpact injuries * 0.4))
  ∧ totalImpact [c1RecQuestionable, c1RecOut] = 9.2
  ∧ (compute_team_impact [c1RecQuestionable, c1RecOut]).adj_em_penalty = 3.68 := by
  refine ⟨fun _ => rfl, rfl, rfl, rfl, rfl, rfl, ?_, ?_, totalImpact_c1, ?_⟩
  · intro s hs
    simp only [status_weight]
    split_ifs with h1 h2 h3 h4 h5 <;> simp_all
  · intro injuries
    match injuries with
    | [] => norm_num [compute_nil, totalImpact, rnd2_zero]
    | inj :: rest =>
      rw [compute_cons]
      rfl
  · rw [compute_cons, totalImpact_c1]
    norm_num [adjEmPenaltyOf, rnd2, roundHalfEven, Int.fract]

/-- Witness for C1: the unknown status "Indefinite" gets weight 0.5. -/
theorem c1_total_impact_weighted_sum_witness : status_weight "Indefinite" = 0.5 :=
  c1_total_impact_weighted_sum.2.2.2.2.2.2.1 "Indefinite" (by decide)

/-- C2: the aggregator on the empty list gives severity "none" and zero in
every numeric field; for every input the severity is the threshold bucket of
`adj_em_penalty` (≥5 critical, ≥2.5 significant, ≥1 moderate, >0 minor, else
none); and `adj_em_penalty` is monotonically non-decreasing in
`total_impact`. -/
theorem c2_empty_and_severity_thresholds :
    ((compute_team_impact []).severity = "none"
      ∧ (compute_team_impact []).adj_em_penalty = 0
      ∧ (compute_team_impact []).variance_boost = 0
      ∧ (compute_team_impact []).tempo_adj = 0
      ∧ (compute_team_impact []).out_starters = 0
      ∧ (compute_team_impact []).out_players = 0
      ∧ (compute_team_impact []).total_impact_score = 0)
  ∧ (∀ injuries : List Injury,
      (compute_team_impact injuries).severity
        = severityOf (compute_team_impact injuries).adj_em_penalty)
  ∧ (∀ p : ℚ,
      severityOf p = if p ≥ 5 then "critical" else if p ≥ 2.5 then "significant"
        else if p ≥ 1 then "moderate" else if p > 0 then "minor" else "none")
  ∧ (∀ t₁ t₂ : ℚ, t₁ ≤ t₂ → adjEmPenaltyOf t₁ ≤ adjEmPenaltyOf t₂) := by
  refine ⟨⟨rfl, by norm_num [compute_nil], by norm_num [compute_nil],
      by norm_num [compute_nil], rfl, rfl, by norm_num [compute_nil]⟩, ?_, fun _ => rfl, ?_⟩
  · intro injuries
    match injuries with
    | [] =>
      rw [compute_nil]
      norm_num [severityOf]
    | inj :: rest => rw [compute_cons]
  · intro t₁ t₂ h
    exact rnd2_mono (by nlinarith [h])

/-- Witness for C2: the monotonicity conjunct applied at 1 ≤ 2. -/
theorem c2_empty_and_severity_thresholds_witness :
    adjEmPenaltyOf 1 ≤ adjEmPenaltyOf 2 :=
  c2_empty_and_severity_thresholds.2.2.2 1 2 (by norm_num)

/-- C3: `out_starters` counts records with status in {Out, Doubtful} and
`is_starter`; `out_players` counts all records with status in
{Out, Doubtful}; `variance_boost = round(out_players*0.15 +
out_starters*0.25, 2)` and `tempo_adj = round(-out_starters*0.3, 2)`;
and the single starter-Out-impact-10 record yields the stated round trip. -/
theorem c3_counts_variance_tempo :
    (∀ injuries : List Injury,
        (compute_team_impact injuries).out_starters
          = (injuries.filter (fun inj =>
              decide ((inj.status = "Out" ∨ inj.status = "Doubtful")
                ∧ inj.is_starter = true))).length)
  ∧ (∀ injuries : List Injury,
        (compute_team_impact injuries).out_players
          = (injuries.filter (fun inj =>
              decide (inj.status = "Out" ∨ inj.status = "Doubtful"))).length)
  ∧ (∀ injuries : List Injury,
        (compute_team_impact injuries).variance_boost
          = rnd2 (((compute_team_impact injuries).out_players : ℚ) * 0.15
              + ((compute_team_impact injuries).out_starters : ℚ) * 0.25)
        ∧ (compute_team_impact injuries).tempo_adj
          = rnd2 (-((compute_team_impact injuries).out_starters : ℚ) * 0.3))
  ∧ ((compute_team_impact [c3Rec]).out_starters = 1
      ∧ (compute_team_impact [c3Rec]).out_players = 1
      ∧ totalImpact [c3Rec] = 10.0
      ∧ (compute_team_impact [c3Rec]).total_impact_score = 10.0
      ∧ (compute_team_impact [c3Rec]).adj_em_penalty = 4.0
      ∧ (compute_team_impact [c3Rec]).variance_boost = 0.4
      ∧ (compute_team_impact [c3Rec]).tempo_adj = -0.3
      ∧ (compute_team_impact [c3Rec]).severity = "significant") := by
  have hkey : (fun inj : Injury =>
      decide ((inj.status = "Out" ∨ inj.status = "Doubtful") ∧ inj.is_starter = true))
      = keyOut := by
    funext inj
    simp [keyOut, outDoubtful, Bool.decide_and, Bool.decide_or]
  have hout : (fun inj : Injury => decide (inj.status = "Out" ∨ inj.status = "Doubtful"))
      = outDoubtful := by
    funext inj
    simp [outDoubtful, Bool.decide_or]
  have hpen : (compute_team_impact [c3Rec]).adj_em_penalty = 4.0 := by
    rw [compute_cons, totalImpact_c3]
    norm_num [adjEmPenaltyOf, rnd2, roundHalfEven, Int.fract]
  refine ⟨?_, ?_, ?_, rfl, rfl, by rw [totalImpact_c3]; norm_num, ?_, hpen, ?_, ?_, ?_⟩
  · intro injuries
    rw [hkey]
    match injuries with
    | [] => rfl
    | inj :: rest => rw [compute_cons]
  · intro injuries
    rw [hout]
    match injuries with
    | [] => rfl
    | inj :: rest => rw [compute_cons]
  · intro injuries
    match injuries with
    | [] =>
      rw [compute_nil]
      constructor <;> norm_num [rnd2_zero]
    | inj :: rest =>
      rw [compute_cons]
      exact ⟨rfl, rfl⟩
  · rw [compute_cons, totalImpact_c3]
    norm_num [rnd1, roundHalfEven, Int.fract]
  · rw [compute_cons]
    have h1 : (List.filter outDoubtful [c3Rec]).length = 1 := rfl
    have h2 : (List.filter keyOut [c3Rec]).length = 1 := rfl
    rw [h1, h2]
    norm_num [rnd2, roundHalfEven, Int.fract]
  · rw [compute_cons]
    have h2 : (List.filter keyOut [c3Rec]).length = 1 := rfl
    rw [h2]
    norm_num [rnd2, roundHalfEven, Int.fract]
  · rw [compute_cons, totalImpact_c3]
    have hp : adjEmPenaltyOf (10 : ℚ) = 4.0 := by
      norm_num [adjEmPenaltyOf, rnd2, roundHalfEven, Int.fract]
    rw [hp]
    norm_num [severityOf]

/-- C7 counterexample: on the empty list both summary pieces are absent
(`key_players_out` is empty and `out_players` equals its length), yet the
summary is "Fully healthy", not "Minor injuries only" as the claim states
for every list. -/
theorem c7_counterexample :
    (compute_team_impact []).key_players_out = []
  ∧ (compute_team_impact []).out_players = 0
  ∧ (compute_team_impact []).summary = "Fully healthy"
  ∧ (compute_team_impact []).summary ≠ "Minor injuries only" :=
  ⟨rfl, rfl, rfl, by decide⟩

/-- C7 (amended to non-empty input): for every non-empty list the summary is
built from the piece "Key out: <comma-joined names>" when `key_players_out`
is non-empty and the piece "+<difference> others out/doubtful" when
`out_players` exceeds the count of `key_players_out`, joined with "; ", and
is "Minor injuries only" when both pieces are absent. -/
theorem c7_summary_construction :
    ∀ injuries : List Injury, injuries ≠ [] →
      (compute_team_impact injuries).summary =
        (let key_players_out := (compute_team_impact injuries).key_players_out
         let out_players := (compute_team_impact injuries).out_players
         let pieces :=
           (if key_players_out.isEmpty then []
            else ["Key out: " ++ String.intercalate ", " key_players_out])
           ++ (if key_players_out.length < out_players then
                ["+" ++ toString (out_players - key_players_out.length) ++ " others out/doubtful"]
              else [])
         if pieces.isEmpty then "Minor injuries only" else String.intercalate "; " pieces) := by
  intro injuries hne
  match injuries with
  | [] => exact absurd rfl hne
  | inj :: rest =>
    rw [compute_cons]
    rfl

/-- Witness for C7: a starter Out plus a non-starter Doubtful produce both
summary pieces. -/
theorem c7_summary_construction_witness :
    (compute_team_impact c7DemoList).summary = "Key out: Star B; +1 others out/doubtful" := by
  rw [c7_summary_construction c7DemoList (by simp [c7DemoList])]
  rfl

/- ## Helper lemmas for the star player table -/

theorem lookup_some_key {β : Type} :
    ∀ (l : List (String × β)) (s : String) (v : β),
      l.lookup s = some v → ∃ kv, kv ∈ l ∧ kv.1 = s ∧ kv.2 = v := by
  intro l
  induction l with
  | nil => intro s v h; simp [List.lookup] at h
  | cons kv rest ih =>
    intro s v h
    obtain ⟨k, b⟩ := kv
    simp only [List.lookup] at h
    cases hq : s == k with
    | true =>
      rw [hq] at h
      simp only [Option.some.injEq] at h
      exact ⟨(k, b), List.mem_cons_self _ _, (eq_of_beq hq).symm, h⟩
    | false =>
      rw [hq] at h
      obtain ⟨kv2, hmem, hk, hv⟩ := ih s v h
      exact ⟨kv2, List.mem_cons_of_mem _ hmem, hk, hv⟩

theorem star_keys_have_tokens :
    (STAR_PLAYERS.all fun kv => !(pySplit (pyStrip (pyLower kv.1))).isEmpty) = true := rfl

theorem star_impacts_in_range :
    (STAR_PLAYERS.all fun kv => 1 ≤ kv.2.impact && kv.2.impact ≤ 10) = true := rfl

theorem starLoop_some_mem (name_lower : String) :
    ∀ (l : List (String × StarInfo)) (v : StarInfo),
      starLoop name_lower l = .ok (some v) → ∃ kv, kv ∈ l ∧ kv.2 = v := by
  intro l
  induction l with
  | nil => intro v h; simp [starLoop] at h
  | cons kv rest ih =>
    intro v h
    obtain ⟨key, val⟩ := kv
    simp only [starLoop] at h
    split_ifs at h with h1 h2 h3 h4 h5 <;>
      first
        | exact ⟨(key, val), List.mem_cons_self _ _, by simpa using h⟩
        | (obtain ⟨kv2, hmem, hv⟩ := ih v h
           exact ⟨kv2, List.mem_cons_of_mem _ hmem, hv⟩)

theorem get_star_player_some_mem (player_name : String) (v : StarInfo)
    (h : get_star_player player_name = .ok (some v)) : ∃ kv, kv ∈ STAR_PLAYERS ∧ kv.2 = v := by
  unfold get_star_player at h
  cases hl : STAR_PLAYERS.lookup player_name with
  | some val =>
    rw [hl] at h
    simp only [Except.ok.injEq, Option.some.injEq] at h
    obtain ⟨kv, hmem, _, hv⟩ := lookup_some_key STAR_PLAYERS player_name val hl
    exact ⟨kv, hmem, h ▸ hv⟩
  | none =>
    rw [hl] at h
    exact starLoop_some_mem _ STAR_PLAYERS v h

theorem star_impact_range_of_mem (kv : String × StarInfo) (h : kv ∈ STAR_PLAYERS) :
    1 ≤ kv.2.impact ∧ kv.2.impact ≤ 10 := by
  have := List.all_eq_true.mp star_impacts_in_range kv h
  simpa using this

theorem starLoop_eq_find? (name_lower : String)
    (hne : (pySplit name_lower).isEmpty = false) :
    ∀ l : List (String × StarInfo),
      starLoop name_lower l
        = .ok ((l.find? fun kv => loop_hit name_lower kv.1).map Prod.snd) := by
  intro l
  induction l with
  | nil => rfl
  | cons kv rest ih =>
    obtain ⟨key, val⟩ := kv
    simp only [starLoop]
    by_cases h1 : pyLower key = name_lower
    · have hp : loop_hit name_lower key = true := by
        unfold loop_hit
        rw [if_pos h1]
      have hfind : List.find? (fun kv : String × StarInfo => loop_hit name_lower kv.1)
          ((key, val) :: rest) = some (key, val) := by
        simp [List.find?_cons, hp]
      rw [if_pos h1, hfind]
      rfl
    · rw [if_neg h1]
      by_cases h2 : 2 ≤ (pySplit key).length
      · rw [if_pos h2, if_neg (show ¬(pySplit name_lower).isEmpty = true by simp [hne])]
        by_cases h3 : pyLower ((pySplit key).getLastD "")
            = pyLower ((pySplit name_lower).getLastD "")
        · rw [if_pos h3]
          by_cases h4 : ((pySplit name_lower).headD "").data.headD ' '
              = Char.toLower (((pySplit key).headD "").data.headD ' ')
          · have hp : loop_hit name_lower key = true := by
              unfold loop_hit
              rw [if_neg h1, if_pos h2, if_pos h3, if_pos h4]
            have hfind : List.find? (fun kv : String × StarInfo => loop_hit name_lower kv.1)
                ((key, val) :: rest) = some (key, val) := by
              simp [List.find?_cons, hp]
            rw [if_pos h4, hfind]
            rfl
          · have hp : loop_hit name_lower key = false := by
              unfold loop_hit
              rw [if_neg h1, if_pos h2, if_pos h3, if_neg h4]
            have hfind : List.find? (fun kv : String × StarInfo => loop_hit name_lower kv.1)
                ((key, val) :: rest)
                = List.find? (fun kv : String × StarInfo => loop_hit name_lower kv.1) rest := by
              simp [List.find?_cons, hp]
            rw [if_neg h4, hfind]
            exact ih
        · have hp : loop_hit name_lower key = false := by
            unfold loop_hit
            rw [if_neg h1, if_pos h2, if_neg h3]
          have hfind : List.find? (fun kv : String × StarInfo => loop_hit name_lower kv.1)
              ((key, val) :: rest)
              = List.find? (fun kv : String × StarInfo => loop_hit name_lower kv.1) rest := by
            simp [List.find?_cons, hp]
          rw [if_neg h3, hfind]
          exact ih
      · have hp : loop_hit name_lower key = false := by
          unfold loop_hit
          rw [if_neg h1, if_neg h2]
        have hfind : List.find? (fun kv : String × StarInfo => loop_hit name_lower kv.1)
            ((key, val) :: rest)
            = List.find? (fun kv : String × StarInfo => loop_hit name_lower kv.1) rest := by
          simp [List.find?_cons, hp]
        rw [if_neg h2, hfind]
        exact ih

theorem starLoop_error_cons (name_lower key : String) (val : StarInfo)
    (rest : List (String × StarInfo)) (hem : (pySplit name_lower).isEmpty = true)
    (hk : pyLower key ≠ name_lower) (h2 : 2 ≤ (pySplit key).length) :
    starLoop name_lower ((key, val) :: rest) = .error .indexError := by
  simp [starLoop, hk, h2, hem]

/- ## The claims about player lookup and the override pass -/

/-- C6 counterexample: the name "jason edwards" has a case-insensitive exact
match in the table ("Jason Edwards", Vanderbilt), yet `get_star_player`
returns the Kentucky entry of "Justin Edwards", because the loop tries the
last-name rule on earlier entries before the case-insensitive comparison
ever reaches "Jason Edwards" - refuting the claimed precedence of
case-insensitive exact matching over last-name matching. -/
theorem c6_counterexample :
    get_star_player "jason edwards" = .ok (some ⟨"Kentucky", "SF", "key_star", 8⟩)
  ∧ pyLower "Jason Edwards" = "jason edwards"
  ∧ STAR_PLAYERS.lookup "Jason Edwards" = some ⟨"Vanderbilt", "SG", "key_star", 8⟩
  ∧ (⟨"Kentucky", "SF", "key_star", 8⟩ : StarInfo) ≠ ⟨"Vanderbilt", "SG", "key_star", 8⟩ :=
  ⟨rfl, rfl, rfl, by decide⟩

/-- C6 (amended): `get_star_player` resolves by exact (case-sensitive) match
first; otherwise it scans the table in insertion order and returns the first
entry that matches case-insensitively exactly OR on last name gated by the
first initial - the two fuzzy rules are tried together per entry, not in
two staged passes.  "Toppin" alone does not resolve, "J. Toppin" resolves
to the JT Toppin entry. -/
theorem c6_lookup_order :
    (∀ player_name : String,
      pySplit (pyStrip (pyLower player_name)) ≠ [] →
      get_star_player player_name
        = .ok (match STAR_PLAYERS.lookup player_name with
            | some val => some val
            | none =>
              (STAR_PLAYERS.find?
                (fun kv => loop_hit (pyStrip (pyLower player_name)) kv.1)).map Prod.snd))
  ∧ get_star_player "Toppin" = .ok none
  ∧ get_star_player "J. Toppin" = .ok (some ⟨"Texas Tech", "F", "key_star", 9⟩) := by
  refine ⟨?_, by rfl, by rfl⟩
  intro player_name hne
  unfold get_star_player
  cases hl : STAR_PLAYERS.lookup player_name with
  | some val => rfl
  | none =>
    have hne2 : (pySplit (pyStrip (pyLower player_name))).isEmpty = false := by
      simpa [List.isEmpty_iff] using hne
    exact starLoop_eq_find? _ hne2 STAR_PLAYERS

/-- Witness for C6: the amended lookup rule applied at "J. Toppin". -/
theorem c6_lookup_order_witness :
    get_star_player "J. Toppin"
      = .ok (match STAR_PLAYERS.lookup "J. Toppin" with
          | some val => some val
          | none =>
            (STAR_PLAYERS.find?
              (fun kv => loop_hit (pyStrip (pyLower "J. Toppin")) kv.1)).map Prod.snd) :=
  c6_lookup_order.1 "J. Toppin" (by decide)

/-- C10: a player name with no whitespace-separated tokens makes
`get_star_player` raise IndexError (the `name_lower.split()[-1]` subscript),
and a single record with such a (for instance empty) player field aborts the
whole override pass with that exception. -/
theorem c10_empty_name_raises :
    (∀ player_name : String,
      pySplit (pyStrip (pyLower player_name)) = [] →
      get_star_player player_name = .error .indexError)
  ∧ (∀ (inj : Injury) (rest : List Injury),
      pySplit (pyStrip (pyLower inj.player)) = [] →
      apply_star_overrides (inj :: rest) = .error .indexError) := by
  have main : ∀ player_name : String,
      pySplit (pyStrip (pyLower player_name)) = [] →
      get_star_player player_name = .error .indexError := by
    intro s h
    have hlk : STAR_PLAYERS.lookup s = none := by
      cases hl : STAR_PLAYERS.lookup s with
      | none => rfl
      | some v =>
        obtain ⟨kv, hmem, hk, _⟩ := lookup_some_key STAR_PLAYERS s v hl
        have htok := List.all_eq_true.mp star_keys_have_tokens kv hmem
        rw [hk] at htok
        simp [h] at htok
    unfold get_star_player
    rw [hlk]
    obtain ⟨tail, htail⟩ :
        ∃ t, STAR_PLAYERS = ("Cooper Flagg", ⟨"Duke", "PF", "superstar", 10⟩) :: t :=
      ⟨_, rfl⟩
    rw [htail]
    refine starLoop_error_cons _ _ _ _ (by simp [h]) ?_ (by decide)
    intro heq
    rw [← heq] at h
    exact absurd h (by decide)
  refine ⟨main, ?_⟩
  intro inj rest h
  simp [apply_star_overrides, overrideOne, main inj.player h]

/-- Witness for C10: the empty player name, and a one-record list holding
it, both produce the IndexError. -/
theorem c10_empty_name_raises_witness :
    get_star_player "" = .error .indexError
  ∧ apply_star_overrides [{ player := "" }] = .error .indexError :=
  ⟨c10_empty_name_raises.1 "" rfl, c10_empty_name_raises.2 { player := "" } [] rfl⟩

/-- An input record for C4 whose player is not in the table and whose
model-supplied impact score is out of range. -/
def c4BadRec : Injury :=
  { player := "Zzz", status := "Out", is_starter := true, impact_score := 11 }

/-- An input record for C4 whose player is not in the table and whose
model-supplied impact score is in range. -/
def c4GoodRec : Injury :=
  { player := "Zzz", status := "Out", is_starter := true, impact_score := 5 }

/-- C4 counterexample: the override pass keeps an out-of-range model-supplied
impact score unchanged for a record that matches no table entry, so the
returned list violates the claimed [1,10] invariant. -/
theorem c4_counterexample :
    apply_star_overrides [c4BadRec]
      = .ok [{ player := "Zzz", status := "Out", is_starter := true,
               impact_score := 11, star_verified := false }]
  ∧ ¬ ((11 : ℚ) ≤ 10) :=
  ⟨rfl, by norm_num⟩

/-- C4 (amended): the override pass preserves the [1,10] impact-score range
rather than establishing it - whenever it succeeds on an input whose records
all have impact_score in [1,10], every returned record has impact_score in
[1,10]; table entries always carry an impact in [1,10]. -/
theorem c4_impact_range_preserved :
    (∀ kv, kv ∈ STAR_PLAYERS → 1 ≤ kv.2.impact ∧ kv.2.impact ≤ 10)
  ∧ (∀ (injuries result : List Injury),
      apply_star_overrides injuries = .ok result →
      (∀ inj, inj ∈ injuries → 1 ≤ inj.impact_score ∧ inj.impact_score ≤ 10) →
      ∀ inj, inj ∈ result → 1 ≤ inj.impact_score ∧ inj.impact_score ≤ 10) := by
  refine ⟨star_impact_range_of_mem, ?_⟩
  intro injuries
  induction injuries with
  | nil =>
    intro result h hin inj hmem
    simp only [apply_star_overrides, Except.ok.injEq] at h
    subst h
    simp at hmem
  | cons head rest ih =>
    intro result h hin inj hmem
    simp only [apply_star_overrides] at h
    cases ho : overrideOne head with
    | error e => rw [ho] at h; simp at h
    | ok head2 =>
      rw [ho] at h
      cases hr : apply_star_overrides rest with
      | error e => rw [hr] at h; simp at h
      | ok rest2 =>
        rw [hr] at h
        simp only [Except.ok.injEq] at h
        subst h
        rcases List.mem_cons.mp hmem with hmem1 | hmem2
        · subst hmem1
          unfold overrideOne at ho
          cases hg : get_star_player head.player with
          | error e => rw [hg] at ho; simp at ho
          | ok sopt =>
            rw [hg] at ho
            cases sopt with
            | none =>
              simp only [Except.ok.injEq] at ho
              have := hin head (List.mem_cons_self _ _)
              rw [← ho]
              simpa using this
            | some star =>
              simp only [Except.ok.injEq] at ho
              obtain ⟨kv, hkv, hv⟩ := get_star_player_some_mem head.player star hg
              have hrange := star_impact_range_of_mem kv hkv
              rw [hv] at hrange
              rw [← ho]
              constructor
              · show (1 : ℚ) ≤ (star.impact : ℚ)
                exact_mod_cast hrange.1
              · show (star.impact : ℚ) ≤ 10
                exact_mod_cast hrange.2
        · exact ih rest2 hr (fun i hi => hin i (List.mem_cons_of_mem _ hi)) inj hmem2

/-- Witness for C4: the pass applied to a single in-range record keeps its
score in range. -/
theorem c4_impact_range_preserved_witness :
    1 ≤ c4GoodRec.impact_score ∧ c4GoodRec.impact_score ≤ 10 :=
  c4_impact_range_preserved.2 [c4GoodRec] [c4GoodRec] rfl
    (by
      intro i hi
      simp only [List.mem_singleton] at hi
      subst hi
      norm_num [c4GoodRec])
    c4GoodRec (by simp)

/- ## The claims about team matching, response parsing and the cache -/

/-- C5 counterexample: two empty names are equal after case-folding and
trimming, so the claimed "exactly when" condition holds, yet `_team_match`
returns False because of its guard on falsy names. -/
theorem c5_counterexample :
    team_match "" "" = false
  ∧ pyStrip (pyLower "") = pyStrip (pyLower "")
  ∧ team_match_spec "" "" = true :=
  ⟨rfl, rfl, rfl⟩

/-- C5 (amended): for non-empty names `_team_match` returns true exactly
under the spec's condition (case-fold/trim equality, or equality after the
normalizing substitutions, or the length-gated prefix rule); an empty name
on either side never matches.  "Kansas" does not match "Arkansas" and
"Iowa St." matches "Iowa State". -/
theorem c5_team_match_rule :
    (∀ scraped_name target_name : String,
      team_match scraped_name target_name
        = (!(scraped_name == "") && !(target_name == "")
            && team_match_spec scraped_name target_name))
  ∧ team_match "Kansas" "Arkansas" = false
  ∧ team_match "Iowa St." "Iowa State" = true := by
  refine ⟨?_, rfl, rfl⟩
  intro s t
  by_cases h1 : s = ""
  · simp [team_match, h1]
  · by_cases h2 : t = ""
    · simp [team_match, h1, h2]
    · simp [team_match, team_match_spec, h1, h2]

/-- C8 counterexample: on the reply "[true] ```" - a fence marker after the
payload - the code keeps `split('```')[1]`, the empty segment after the
fence, and returns []; the spec's pipeline (strip a LEADING fence marker if
present, then slice from the first bracket to the last) parses the array. -/
theorem c8_counterexample :
    parse_json_response loadsModel "[true] ```" = []
  ∧ parse_json_response_spec loadsModel "[true] ```" = [PyJson.bool true]
  ∧ ([] : List PyJson) ≠ [PyJson.bool true] :=
  ⟨rfl, rfl, by simp⟩

/-- C8 (amended): for every parser and every input the function totally
returns a list (never raises), built as: the fence step - which keeps the
segment between the first and second fence markers wherever the first one
sits, not merely stripping a leading one - then the first-bracket-to-last-
bracket slice, then parsing, with [] whenever parsing fails or the parsed
value is not a list; text without a fence marker passes the fence step
unchanged. -/
theorem c8_parse_pipeline :
    (∀ (loads : String → Option PyJson) (text : String),
      parse_json_response loads text
        = match loads (slice_brackets (fence_step text)) with
          | some (PyJson.arr elems) => elems
          | some _ => []
          | none => [])
  ∧ (∀ (loads : String → Option PyJson) (text : String),
      loads (slice_brackets (fence_step text)) = none →
      parse_json_response loads text = [])
  ∧ (∀ (loads : String → Option PyJson) (text : String) (v : PyJson),
      loads (slice_brackets (fence_step text)) = some v →
      (∀ elems, v ≠ PyJson.arr elems) →
      parse_json_response loads text = [])
  ∧ (∀ text : String,
      containsSeq fence.data text.data = false → fence_step text = text) := by
  refine ⟨fun _ _ => rfl, ?_, ?_, ?_⟩
  · intro loads text h
    simp [parse_json_response, h]
  · intro loads text v h hna
    cases v with
    | null => simp [parse_json_response, h]
    | bool b => simp [parse_json_response, h]
    | num q => simp [parse_json_response, h]
    | str s => simp [parse_json_response, h]
    | arr elems => exact absurd rfl (hna elems)
    | obj entries => simp [parse_json_response, h]
  · intro text h
    simp [fence_step, h]

/-- Witness for C8: a reply that is not JSON at all yields the empty list
through the fail-soft branch. -/
theorem c8_parse_pipeline_witness :
    parse_json_response loadsModel "no structured data here" = [] :=
  c8_parse_pipeline.2.1 loadsModel "no structured data here" rfl

/-- Reading back the identifier just written reduces the cache to the age
test against the injected stamp. -/
theorem cache_get_set_same {α : Type} (store : CacheStore α) (identifier : String)
    (data : α) (t₀ max_age t₁ : ℚ) :
    cache_get (cache_set store identifier data t₀) identifier max_age t₁
      = if t₁ - t₀ > max_age * 60 then none else some (data, t₀) := by
  unfold cache_get cache_set
  simp

/-- C9: a `set` followed by a `get` under the same identifier returns the
stored payload unchanged together with the injected write-time stamp
whenever the elapsed time is at most `max_age` minutes; with `max_age = 0`
any positive delay misses; an absent or unparseable file always misses; the
age test uses the timestamp embedded at write time. -/
theorem c9_cache_roundtrip :
    (∀ (α : Type) (store : CacheStore α) (identifier : String) (data : α)
        (t₀ t₁ max_age : ℚ),
      t₁ - t₀ ≤ max_age * 60 →
      cache_get (cache_set store identifier data t₀) identifier max_age t₁
        = some (data, t₀))
  ∧ (∀ (α : Type) (store : CacheStore α) (identifier : String) (data : α) (t₀ t₁ : ℚ),
      0 < t₁ - t₀ →
      cache_get (cache_set store identifier data t₀) identifier 0 t₁ = none)
  ∧ (∀ (α : Type) (store : CacheStore α) (identifier : String) (max_age t : ℚ),
      store identifier = none → cache_get store identifier max_age t = none)
  ∧ (∀ (α : Type) (store : CacheStore α) (identifier : String) (max_age t : ℚ),
      store identifier = some .garbage → cache_get store identifier max_age t = none) := by
  refine ⟨?_, ?_, ?_, ?_⟩
  · intro α store idf data t₀ t₁ ma h
    rw [cache_get_set_same, if_neg (by simp only [not_lt, gt_iff_lt]; linarith)]
  · intro α store idf data t₀ t₁ h
    rw [cache_get_set_same, if_pos (by rw [zero_mul]; exact h)]
  · intro α store idf ma t h
    simp [cache_get, h]
  · intro α store idf ma t h
    simp [cache_get, h]

/-- Witness for C9: a concrete round trip - a payload written at time 0 and
read 30 seconds later with a 60 minute budget - and a concrete expiry. -/
theorem c9_cache_roundtrip_witness :
    cache_get (cache_set (fun _ => none : CacheStore ℕ) "team_injuries_Duke" 7 0)
        "team_injuries_Duke" 60 30 = some (7, 0)
  ∧ cache_get (cache_set (fun _ => none : CacheStore ℕ) "team_injuries_Duke" 7 0)
        "team_injuries_Duke" 0 30 = none :=
  ⟨c9_cache_roundtrip.1 ℕ (fun _ => none) "team_injuries_Duke" 7 0 30 60 (by norm_num),
   c9_cache_roundtrip.2.1 ℕ (fun _ => none) "team_injuries_Duke" 7 0 30 (by norm_num)⟩

end NCAAProof


